import Mathlib

/-!
Verification development for the GLSL language-server session layer
(`src/main.cpp` of fapablazacl-practices/glsl-ast-poc).

The C++ source is shallowly embedded: `nlohmann::json` values become the
inductive `Json` (object keys kept sorted, mirroring the `std::map`-backed
default of `nlohmann::json`), C++ exceptions and undefined behaviour become
`Except String`, the external glslang compiler is an abstract function
parameter, and machine-integer conversions (`size_t` → `int` truncation,
`std::string::npos` arithmetic) are made explicit over `Nat`/`Int`.

The headers `workspace.hpp`, `utils.hpp` and `messagebuffer.hpp` are not in
the repository snapshot; the definitions taken from them are modelled from
the specification and carry a `Modelled from the spec:` doc comment.
-/

namespace GlslLsp

/-- Shallow embedding of `nlohmann::json` values.  Integers suffice for the
numbers this program produces.  Object fields are kept sorted by key,
matching the `std::map` storage of `nlohmann::json`'s default ordering. -/
inductive Json where
  | null : Json
  | b : Bool → Json
  | num : Int → Json
  | str : String → Json
  | arr : List Json → Json
  | obj : List (String × Json) → Json

/-- `nlohmann::json`'s `operator==` against a string literal (the only form
`handle_message` uses, e.g. `body["method"] == "initialized"`): true exactly
when the value is that string. -/
def Json.isStr (j : Json) (s : String) : Bool :=
  match j with
  | .str t => t == s
  | _ => false

/-- Field lookup on a JSON object (`find`-style read, no insertion). -/
def Json.lookup : Json → String → Option Json
  | .obj fs, k => fs.lookup k
  | _, _ => none

/-- Read of `j[k]` as the C++ `operator[]` observes it: a missing key or a
non-object yields `null` (the C++ call also inserts `null`; the insertion is
modelled separately by `Json.setDefault` where it is observable). -/
def Json.objAt (j : Json) (k : String) : Json :=
  (j.lookup k).getD .null

/-- Lexicographic order on character lists. -/
def charListLt : List Char → List Char → Bool
  | [], [] => false
  | [], _ :: _ => true
  | _ :: _, [] => false
  | a :: as, b :: bs =>
      if a.toNat < b.toNat then true
      else if b.toNat < a.toNat then false
      else charListLt as bs

/-- `std::string::operator<`, the ordering of `std::map<std::string, ...>`
keys (lexicographic; the keys this program stores are ASCII, where
character-wise and byte-wise comparison agree). -/
def strLt (a b : String) : Bool := charListLt a.data b.data

/-- Sorted-order insertion into an association list, mirroring
`std::map::operator[]=` (replace if present, insert in key order if not). -/
def insertSorted (fs : List (String × Json)) (k : String) (v : Json) :
    List (String × Json) :=
  match fs with
  | [] => [(k, v)]
  | (k', v') :: rest =>
      if k = k' then (k, v) :: rest
      else if strLt k k' then (k, v) :: (k', v') :: rest
      else (k', v') :: insertSorted rest k v

/-- `j[k] = v` on a JSON value: on `null` the C++ `operator[]` first turns the
value into an empty object. -/
def Json.setKey : Json → String → Json → Json
  | .obj fs, k, v => .obj (insertSorted fs k v)
  | .null, k, v => .obj [(k, v)]
  | j, _, _ => j

/-- Effect on the stored value of merely *reading* `j[k]` through the mutable
C++ `operator[]`: a missing key is inserted with value `null`. -/
def Json.setDefault (j : Json) (k : String) : Json :=
  match j with
  | .obj fs => if (fs.lookup k).isSome then .obj fs else .obj (insertSorted fs k .null)
  | .null => .obj [(k, .null)]
  | j => j

/-- `j[i]` for arrays (read); out of range or non-array reads as `null`. -/
def Json.atIdx (j : Json) (i : Nat) : Json :=
  match j with
  | .arr xs => (xs.get? i).getD .null
  | _ => .null

/-- `json::push_back`: on `null` it first becomes a one-element array. -/
def Json.push (j d : Json) : Json :=
  match j with
  | .null => .arr [d]
  | .arr xs => .arr (xs ++ [d])
  | j => j

/-- `json::empty()`: `null` is empty, containers are empty when sizeless,
primitives are never empty. -/
def Json.isEmptyJ : Json → Bool
  | .null => true
  | .arr xs => xs.isEmpty
  | .obj fs => fs.isEmpty
  | _ => false

/-- `json::count(key)` (after the key exists it is `1`). -/
def Json.countKey (j : Json) (k : String) : Nat :=
  match j with
  | .obj fs => if (fs.lookup k).isSome then 1 else 0
  | _ => 0

/-- `json::get<std::string>()`: throws on non-strings. -/
def jsonToString (j : Json) : Except String String :=
  match j with
  | .str s => .ok s
  | _ => .error "json type error: get on non-string value"

/-- A run of `n` spaces, for the pretty serializer's indentation. -/
def spacesStr (n : Nat) : String :=
  String.mk (List.replicate n ' ')

/-- Lowercase hex digit, as used by the serializer's control-char escapes. -/
def hexDigitChar (n : Nat) : Char :=
  if n < 10 then Char.ofNat (48 + n) else Char.ofNat (87 + n)

/-- JSON string escaping as `nlohmann::json::dump` performs it: quotes,
backslashes and control characters are escaped, everything else (including
multi-byte UTF-8) is emitted verbatim. -/
def escapeJsonChar (c : Char) : String :=
  if c = '"' then "\\\""
  else if c = '\\' then "\\\\"
  else if c = '\x08' then "\\b"
  else if c = '\x0c' then "\\f"
  else if c = '\n' then "\\n"
  else if c = '\r' then "\\r"
  else if c = '\t' then "\\t"
  else if c.toNat < 32 then
    "\\u00" ++ String.mk [hexDigitChar (c.toNat / 16), hexDigitChar (c.toNat % 16)]
  else String.singleton c

/-- Escape a whole string for JSON serialization. -/
def escapeJson (s : String) : String :=
  s.data.foldl (fun a c => a ++ escapeJsonChar c) ""

mutual

/-- `json::dump(4)`: pretty serialization with 4-space indentation, the form
`make_response` measures and appends. -/
def dump4 : Json → Nat → String
  | .null, _ => "null"
  | .b true, _ => "true"
  | .b false, _ => "false"
  | .num i, _ => toString i
  | .str s, _ => "\"" ++ escapeJson s ++ "\""
  | .arr [], _ => "[]"
  | .arr (x :: xs), ind =>
      "[\n" ++ dumpItems (x :: xs) (ind + 4) ++ "\n" ++ spacesStr ind ++ "]"
  | .obj [], _ => "\x7b\x7d"
  | .obj (f :: fs), ind =>
      "\x7b\n" ++ dumpFields (f :: fs) (ind + 4) ++ "\n" ++ spacesStr ind ++ "\x7d"

/-- Serialize array elements, one per line. -/
def dumpItems : List Json → Nat → String
  | [], _ => ""
  | [x], ind => spacesStr ind ++ dump4 x ind
  | x :: y :: xs, ind =>
      spacesStr ind ++ dump4 x ind ++ ",\n" ++ dumpItems (y :: xs) ind

/-- Serialize object fields, one per line. -/
def dumpFields : List (String × Json) → Nat → String
  | [], _ => ""
  | [(k, v)], ind =>
      spacesStr ind ++ "\"" ++ escapeJson k ++ "\": " ++ dump4 v ind
  | (k, v) :: g :: fs, ind =>
      spacesStr ind ++ "\"" ++ escapeJson k ++ "\": " ++ dump4 v ind ++ ",\n" ++
        dumpFields (g :: fs) ind

end

/-- `make_response` (main.cpp:37-47): tag the payload with `jsonrpc: "2.0"`,
serialize it once for the `Content-Length` byte count and once as the body.
`std::string::size()` counts bytes, modelled by `String.utf8ByteSize`. -/
def make_response (response : Json) : String :=
  let content := response.setKey "jsonrpc" (.str "2.0")
  "Content-Length: " ++ toString (dump4 content 0).utf8ByteSize ++ "\r\n" ++
    "Content-Type: application/vscode-jsonrpc;charset=utf-8\r\n" ++ "\r\n" ++
    dump4 content 0

/-- Split a character list at every occurrence of the separator
character. -/
def splitOnChar (c : Char) : List Char → List (List Char)
  | [] => [[]]
  | x :: rest =>
      if x = c then [] :: splitOnChar c rest
      else
        match splitOnChar c rest with
        | [] => [[x]]
        | h :: t => (x :: h) :: t

/-- Modelled from the spec: `split_string` lives in the absent `utils.hpp`;
§4.3 step 1 splits log and source into lines (both call sites separate on a
newline, so the separator is a single character). -/
def split_string (s : String) (sep : Char) : List String :=
  (splitOnChar sep s.data).map String.mk

/-- Modelled from the spec: `trim` lives in the absent `utils.hpp`; §4.3
step 6 trims leading and trailing spaces from the message (the call site
passes `" "` as the character set). -/
def trim (s chars : String) : String :=
  String.mk ((((s.data.dropWhile (chars.data.contains ·)).reverse).dropWhile
    (chars.data.contains ·)).reverse)

/-- The glslang shader stages (`EShLanguage`). -/
inductive EShLanguage where
  | vertex | tessControl | tessEvaluation | geometry | fragment | compute

/-- `std::filesystem::path(name).extension()`: the substring of the filename
from its last dot, empty for dotless names, dotfiles, `.` and `..`. -/
def pathExtension (name : String) : String :=
  let filename := (split_string name '/').getLastD ""
  if filename = "." ∨ filename = ".." then ""
  else
    match (List.range filename.data.length).filter
        (fun i => filename.data.get? i = some '.') |>.getLast? with
    | none => ""
    | some i => if i = 0 then "" else String.mk (filename.data.drop i)

/-- `find_language` (main.cpp:49-65): map the file extension to a shader
stage; any other extension throws `std::invalid_argument`. -/
def find_language (name : String) : Except String EShLanguage :=
  let ext := pathExtension name
  if ext = ".vert" then .ok .vertex
  else if ext = ".tesc" then .ok .tessControl
  else if ext = ".tese" then .ok .tessEvaluation
  else if ext = ".geom" then .ok .geometry
  else if ext = ".frag" then .ok .fragment
  else if ext = ".comp" then .ok .compute
  else .error "Unknown file extension!"

/-- Maximal-munch digit run followed (after backtracking, as the greedy
`\d*` does) by the literal `": "`: the tail of the outer diagnostic pattern
after its `": 0:"` anchor.  Returns the digit group and the final `(.*)`
group. -/
def matchTail (cs : List Char) : Option (List Char × List Char) :=
  let maxd := (cs.takeWhile Char.isDigit).length
  match ((List.range (maxd + 1)).filter
      (fun k => [':', ' '].isPrefixOf (cs.drop k))).getLast? with
  | none => none
  | some k => some (cs.take k, cs.drop (k + 2))

/-- `std::regex_search` of `(.*): 0:(\d*): (.*)` (main.cpp:93,100) on a
single log line (the line contains no line terminators, having come from a
newline split).  ECMAScript greediness makes the first `(.*)` take the
rightmost `": 0:"` anchor that still lets the rest of the pattern match, and
`(\d*)` take the longest digit run that leaves a `": "`. -/
def outerMatch (s : String) : Option (String × String × String) :=
  let cs := s.data
  match ((List.range (cs.length + 1)).filter
      (fun i => ": 0:".data.isPrefixOf (cs.drop i) ∧
        (matchTail (cs.drop (i + 4))).isSome)).getLast? with
  | none => none
  | some i =>
      match matchTail (cs.drop (i + 4)) with
      | none => none
      | some (ds, rest) => some (String.mk (cs.take i), String.mk ds, String.mk rest)

/-- `std::regex_search` of `'(.*)' : (.*)` (main.cpp:127-128) on the trimmed
message: the match starts at the leftmost opening quote that has a later
`"' : "`, and the greedy group takes the rightmost such closing. -/
def secondaryMatch (s : String) : Option (String × String) :=
  let cs := s.data
  let closings := fun (p : Nat) =>
    (List.range (cs.length + 1)).filter
      (fun q => p + 1 ≤ q ∧ ['\'', ' ', ':', ' '].isPrefixOf (cs.drop q))
  match ((List.range cs.length).filter
      (fun p => cs.get? p = some '\'' ∧ ¬ (closings p).isEmpty)).head? with
  | none => none
  | some p =>
      match (closings p).getLast? with
      | none => none
      | some q =>
          some (String.mk ((cs.drop (p + 1)).take (q - (p + 1))),
                String.mk (cs.drop (q + 4)))

/-- `std::stoi` on the digit group captured by `(\d*)`: empty input throws
`invalid_argument`, a value beyond `INT_MAX` throws `out_of_range`. -/
def stoiInt (s : String) : Except String Int :=
  if s.data.isEmpty then .error "stoi: invalid argument"
  else
    let v : Nat := s.data.foldl (fun a c => a * 10 + (c.toNat - 48)) 0
    if v > 2147483647 then .error "stoi: out of range" else .ok (v : Int)

/-- `std::string::find`: index of the first occurrence of `needle`, `none`
standing for `npos`. -/
def strFind (hay needle : String) : Option Nat :=
  (List.range (hay.data.length + 1)).find?
    (fun i => needle.data.isPrefixOf (hay.data.drop i))

/-- `std::string::npos` (`size_t(-1)`). -/
def npos : Nat := 18446744073709551615

/-- Wrap into `size_t` range. -/
def sizeT (x : Nat) : Nat := x % 18446744073709551616

/-- `x - 1` in `size_t` arithmetic. -/
def sizeTSub1 (x : Nat) : Nat := sizeT (x + npos)

/-- Conversion of a `size_t` value to a 32-bit `int` (two's-complement
truncation), as in `start_char = source_pos` (main.cpp:133-134). -/
def trunc32 (n : Nat) : Int :=
  let m := n % 4294967296
  if m < 2147483648 then (m : Int) else (m : Int) - 4294967296

/-- Modelled from the spec: the `Workspace` of the absent `workspace.hpp`
(§3, §4.2) — an initialization flag plus the URI → text document map. -/
structure Workspace where
  initialized : Bool
  docs : List (String × String)

/-- Replace the value for a key, or append a fresh binding. -/
def assocSet (l : List (String × String)) (k v : String) :
    List (String × String) :=
  match l with
  | [] => [(k, v)]
  | (k', v') :: rest =>
      if k' = k then (k, v) :: rest else (k', v') :: assocSet rest k v

/-- Replace the value for a key only when the key is present. -/
def assocSetIfMem (l : List (String × String)) (k v : String) :
    List (String × String) :=
  match l with
  | [] => []
  | (k', v') :: rest =>
      if k' = k then (k, v) :: rest else (k', v') :: assocSetIfMem rest k v

/-- Modelled from the spec: `Workspace::add_document` inserts or overwrites
the document for a URI (§4.2, last write wins). -/
def add_document (w : Workspace) (uri text : String) : Workspace :=
  { w with docs := assocSet w.docs uri text }

/-- Modelled from the spec: `Workspace::change_document` replaces the full
text for an existing URI and fails silently when the URI was never opened
(§4.2). -/
def change_document (w : Workspace) (uri text : String) : Workspace :=
  { w with docs := assocSetIfMem w.docs uri text }

/-- Modelled from the spec: `Workspace::documents()` snapshot read followed
by `std::map::operator[]`, which yields a default-constructed (empty) string
for an absent URI. -/
def documentsGet (w : Workspace) (uri : String) : String :=
  (w.docs.lookup uri).getD ""

/-- The `AppState` of main.cpp:30-35: workspace plus logging flags (the
`std::ofstream` itself is modelled by the returned `LogNote` lists). -/
structure AppState where
  workspace : Workspace
  verbose : Bool
  use_logfile : Bool

/-- One `fmt::print(appstate.logfile_stream, ...)` event inside
`get_diagnostics`, recorded structurally instead of as formatted text. -/
inductive LogNote where
  | raw : String → LogNote
  | unknownSeverity : String → LogNote
  | sending : Json → LogNote

/-- The body of the `get_diagnostics` translation loop (main.cpp:99-156) for
one log line: `none` when the outer pattern does not match; a structured
diagnostic plus the unknown-severity log note otherwise.  `std::stoi` on an
empty digit group and the out-of-range `content_lines[line_no]` access
(unchecked `std::vector::operator[]`, undefined behaviour in the source)
surface as `Except.error`. -/
def processErrorLine (content_lines : List String) (st : AppState)
    (error_line : String) : Except String (Option Json × List LogNote) :=
  match outerMatch error_line with
  | none => .ok (none, [])
  | some (severity, lineDigits, rawMessage) => do
    let severity_no : Int :=
      if severity = "ERROR" then 1 else if severity = "WARNING" then 2 else -1
    let notes :=
      if severity_no = -1 ∧ st.use_logfile then
        [LogNote.unknownSeverity severity]
      else []
    let message := trim rawMessage " "
    let ln ← stoiInt lineDigits
    let line_no : Int := ln - 1
    if hidx : 0 ≤ line_no ∧ line_no.toNat < content_lines.length then
      let source_line := content_lines.get ⟨line_no.toNat, hidx.2⟩
      let se : Int × Int :=
        match secondaryMatch message with
        | some (identifier, _) =>
            let identifier_length := identifier.data.length
            match strFind source_line identifier with
            | some source_pos =>
                (trunc32 source_pos,
                  trunc32 (sizeTSub1 (sizeT (source_pos + identifier_length))))
            | none =>
                (trunc32 npos,
                  trunc32 (sizeTSub1 (sizeT (npos + identifier_length))))
        | none => (0, trunc32 source_line.data.length)
      let range : Json := .obj
        [("end", .obj [("character", .num se.2), ("line", .num line_no)]),
         ("start", .obj [("character", .num se.1), ("line", .num line_no)])]
      let diagnostic : Json := .obj
        [("message", .str message), ("range", range),
         ("severity", .num severity_no), ("source", .str "glslang")]
      .ok (some diagnostic, notes)
    else
      .error "vector index out of range"

/-- One iteration of the `get_diagnostics` loop (main.cpp:99-157): process a
log line and, when it produced a diagnostic, `push_back` it onto the
accumulated `json`, collecting the log notes. -/
def diagStep (content_lines : List String) (st : AppState)
    (acc : Json × List LogNote) (error_line : String) :
    Except String (Json × List LogNote) := do
  let step ← processErrorLine content_lines st error_line
  match step.1 with
  | some diagnostic => pure (acc.1.push diagnostic, acc.2 ++ step.2)
  | none => pure (acc.1, acc.2 ++ step.2)

/-- `get_diagnostics` (main.cpp:67-163).  The glslang invocation is the
abstract collaborator `compile`; its log is scraped line by line.  A faulting
line (exception or out-of-range access) aborts the whole pass, as the C++
control flow does. -/
def get_diagnostics (compile : EShLanguage → String → String)
    (uri content : String) (st : AppState) :
    Except String (Json × List LogNote) := do
  let lang ← find_language uri
  let debug_log := compile lang content
  let notes0 :=
    if st.use_logfile ∧ st.verbose then [LogNote.raw debug_log] else []
  let error_lines := split_string debug_log '\n'
  let content_lines := split_string content '\n'
  let folded ← error_lines.foldlM (diagStep content_lines st) (Json.null, notes0)
  let notes :=
    if st.use_logfile ∧ st.verbose then folded.2 ++ [LogNote.sending folded.1]
    else folded.2
  pure (folded.1, notes)

/-- The `textDocumentSync` capability object (main.cpp:176-182). -/
def text_document_sync : Json := .obj
  [("change", .num 1), ("openClose", .b true),
   ("save", .obj [("includeText", .b false)]),
   ("willSave", .b false), ("willSaveWaitUntil", .b false)]

/-- The `completionProvider` capability object (main.cpp:184-187); the empty
braced initializer for `triggerCharacters` builds an empty container. -/
def completion_provider : Json := .obj
  [("resolveProvider", .b false), ("triggerCharacters", .obj [])]

/-- The `signatureHelpProvider` capability object (main.cpp:188-190). -/
def signature_help_provider : Json := .obj [("triggerCharacters", .str "")]

/-- The `codeLensProvider` capability object (main.cpp:191-193). -/
def code_lens_provider : Json := .obj [("resolveProvider", .b false)]

/-- The `documentOnTypeFormattingProvider` capability object
(main.cpp:194-197). -/
def document_on_type_formatting_provider : Json := .obj
  [("firstTriggerCharacter", .str ""), ("moreTriggerCharacter", .str "")]

/-- The `documentLinkProvider` capability object (main.cpp:198-200). -/
def document_link_provider : Json := .obj [("resolveProvider", .b false)]

/-- The `executeCommandProvider` capability object (main.cpp:201-203). -/
def execute_command_provider : Json := .obj [("commands", .obj [])]

/-- The static `initialize` result (main.cpp:204-227), fields in the sorted
key order `nlohmann::json`'s map storage gives them. -/
def initializeResult : Json := .obj
  [("capabilities", .obj
    [("codeActionProvider", .b false),
     ("codeLensProvider", code_lens_provider),
     ("completionProvider", completion_provider),
     ("definitionProvider", .b false),
     ("documentFormattingProvider", .b false),
     ("documentHighlightProvider", .b false),
     ("documentLinkProvider", document_link_provider),
     ("documentOnTypeFormattingProvider", document_on_type_formatting_provider),
     ("documentRangeFormattingProvider", .b false),
     ("documentSymbolProvider", .b false),
     ("executeCommandProvider", execute_command_provider),
     ("experimental", .obj []),
     ("hoverProvider", .b false),
     ("referencesProvider", .b false),
     ("renameProvider", .b false),
     ("signatureHelpProvider", signature_help_provider),
     ("textDocumentSync", text_document_sync),
     ("workspaceSymbolProvider", .b false)])]

/-- The `textDocument/publishDiagnostics` notification body built by the
didOpen/didChange handlers (main.cpp:243-249, 261-267). -/
def publishBody (uri : String) (diagnostics : Json) : Json := .obj
  [("method", .str "textDocument/publishDiagnostics"),
   ("params", .obj [("diagnostics", diagnostics), ("uri", .str uri)])]

/-- A `{ "error": { code, message } }` response body, the shape built at
main.cpp:275-282, 287-295 and 298-305. -/
def errorBody (code : Int) (message : String) : Json := .obj
  [("error", .obj [("code", .num code), ("message", .str message)])]

/-- `handle_message` (main.cpp:165-306).  Returns the response *body* (the
framing through `make_response` is `Option.map make_response` of this, see
`handle_message_framed`); `none` models `std::nullopt`.  C++ exceptions
escaping the handler (json type errors, `find_language`'s
`invalid_argument`, `stoi` failures, the out-of-range vector access) are the
`Except.error` case — the source has no handler for them.  Reading
`body["method"]` at main.cpp:169 through the mutable `operator[]` inserts a
`null` when the key is absent, which `body.count("method")` at main.cpp:286
then observes. -/
def handle_message (compile : EShLanguage → String → String) (body : Json)
    (st : AppState) : Except String (Option Json × AppState) :=
  let body := body.setDefault "method"
  let m := body.objAt "method"
  if m.isStr "initialized" then
    .ok (none, st)
  else if m.isStr "initialize" then
    let st := { st with workspace := { st.workspace with initialized := true } }
    let body := body.setDefault "id"
    let result_body : Json := .obj
      [("id", body.objAt "id"), ("result", initializeResult)]
    .ok (some result_body, st)
  else if m.isStr "textDocument/didOpen" then do
    let uri ← jsonToString (((body.objAt "params").objAt "textDocument").objAt "uri")
    let text ← jsonToString (((body.objAt "params").objAt "textDocument").objAt "text")
    let st := { st with workspace := add_document st.workspace uri text }
    let d ← get_diagnostics compile uri text st
    let diagnostics := if d.1.isEmptyJ then Json.arr [] else d.1
    .ok (some (publishBody uri diagnostics), st)
  else if m.isStr "textDocument/didChange" then do
    let uri ← jsonToString (((body.objAt "params").objAt "textDocument").objAt "uri")
    let change ← jsonToString ((((body.objAt "params").objAt "contentChanges").atIdx 0).objAt "text")
    let st := { st with workspace := change_document st.workspace uri change }
    let document := documentsGet st.workspace uri
    let d ← get_diagnostics compile uri document st
    let diagnostics := if d.1.isEmptyJ then Json.arr [] else d.1
    .ok (some (publishBody uri diagnostics), st)
  else if ¬ (m.isStr "initialize" = true) ∧ ¬ st.workspace.initialized then
    .ok (some (errorBody (-32002) "Server not yet initialized."), st)
  else if body.countKey "method" = 1 then
    match m with
    | .str s => .ok (some (errorBody (-32601) ("Method '" ++ s ++ "' not supported.")), st)
    | _ => .error "json type error: get on non-string value"
  else
    .ok (some (errorBody (-32700) "Couldn't parse message."), st)

/-- `handle_message` as the source literally has it: each returned body
framed through `make_response` into the wire string. -/
def handle_message_framed (compile : EShLanguage → String → String)
    (body : Json) (st : AppState) : Except String (Option String × AppState) :=
  (handle_message compile body st).map (fun r => (r.1.map make_response, r.2))

/-- A `textDocument/didOpen` request body as the wire protocol (§6) shapes
it. -/
def didOpenBody (uri text : String) : Json := .obj
  [("method", .str "textDocument/didOpen"),
   ("params", .obj [("textDocument", .obj [("text", .str text), ("uri", .str uri)])])]

/-- A `textDocument/didChange` request body with one full-sync change. -/
def didChangeBody (uri text : String) : Json := .obj
  [("method", .str "textDocument/didChange"),
   ("params", .obj
     [("contentChanges", .arr [.obj [("text", .str text)]]),
      ("textDocument", .obj [("uri", .str uri)])])]

/-- A fresh session state: uninitialized workspace, no logging. -/
def uninitState : AppState := ⟨⟨false, []⟩, false, false⟩

/-- A session state after `initialize`, no logging. -/
def initializedState : AppState := ⟨⟨true, []⟩, false, false⟩

/-- An uninitialized state with the log file enabled (non-verbose). -/
def logState : AppState := ⟨⟨false, []⟩, false, true⟩

/-- Seven lines of shader source whose 7th line defines `positions`
(the §8 diagnostic-translation example). -/
def exampleContent : String := "a\nb\nc\nd\ne\nf\nvec2 positions[3] = vec3[]("

section Theorems

/-- Inversion of a successful `Except` bind. -/
theorem exceptBind_eq_ok {ε α β : Type} (x : Except ε α) (f : α → Except ε β)
    (b : β) : (x >>= f) = .ok b ↔ ∃ a, x = .ok a ∧ f a = .ok b := by
  cases x <;> simp [Bind.bind, Except.bind]

/-- `trunc32` is the identity below `2^31`. -/
theorem trunc32_small (n : Nat) (h : n < 2147483648) : trunc32 n = n := by
  unfold trunc32
  have hm : n % 4294967296 = n := Nat.mod_eq_of_lt (by omega)
  simp only [hm]
  rw [if_pos h]

/-- `size_t` subtraction by one without wraparound. -/
theorem sizeTSub1_small (n : Nat) (h1 : 1 ≤ n)
    (h2 : n ≤ 18446744073709551616) : sizeTSub1 n = n - 1 := by
  unfold sizeTSub1 sizeT npos
  omega

/-- `sizeT` is the identity below `2^64`. -/
theorem sizeT_small (n : Nat) (h : n < 18446744073709551616) : sizeT n = n :=
  Nat.mod_eq_of_lt h

/-- C8: for every payload, the frame `make_response` emits declares a
`Content-Length` equal to the exact byte count (`String.utf8ByteSize`, not
the character count) of the serialized body following the blank separator
line, and that body is the serialization of the payload with its
`jsonrpc: "2.0"` tag. -/
theorem spec_C8_content_length_byte_exact (response : Json) :
    ∃ body : String,
      make_response response =
        "Content-Length: " ++ toString body.utf8ByteSize ++ "\r\n" ++
          "Content-Type: application/vscode-jsonrpc;charset=utf-8\r\n" ++ "\r\n" ++
          body ∧
      body = dump4 (response.setKey "jsonrpc" (.str "2.0")) 0 :=
  ⟨dump4 (response.setKey "jsonrpc" (.str "2.0")) 0, rfl, rfl⟩

/-- C1 (failing input): a `textDocument/didOpen` received while the
workspace is still uninitialized is dispatched to the open handler and
answered with a `publishDiagnostics` notification — not with the
`-32002` "Server not yet initialized." error response the claim requires. -/
theorem spec_C1_uninitialized_didOpen_not_rejected :
    ∃ resp st',
      handle_message (fun _ _ => "") (didOpenBody "file:///a.vert" "x")
          uninitState = .ok (some resp, st') ∧
      resp.lookup "method" = some (.str "textDocument/publishDiagnostics") ∧
      resp.lookup "error" = none :=
  ⟨publishBody "file:///a.vert" (Json.arr []),
   ⟨⟨false, [("file:///a.vert", "x")]⟩, false, false⟩, rfl, rfl, rfl⟩

/-- C2 (failing input): a log line whose 1-based line number exceeds the
source line count reaches the unchecked `content_lines[line_no]` access and
aborts the whole diagnostic pass — the following, perfectly valid log line
is never translated, instead of the per-diagnostic skip the claim
describes. -/
theorem spec_C2_out_of_range_line_aborts_pass :
    get_diagnostics (fun _ _ => "ERROR: 0:5: 'y' : bad\nERROR: 0:1: 'x' : fine")
        "file:///a.vert" "x" uninitState = .error "vector index out of range" :=
  rfl

/-- C3 (failing input): when the secondary pattern matches but the
identifier (here `foo`, length 3) does not occur on the 3-character source
line `abc`, the emitted span is not the whole line (start 0, end 3) — the
`npos` arithmetic truncated to `int` produces start `-1` and end `1`. -/
theorem spec_C3_identifier_not_found_npos_span :
    ∃ d, get_diagnostics (fun _ _ => "ERROR: 0:1: 'foo' : bad")
        "file:///a.vert" "abc" uninitState = .ok (.arr [d], []) ∧
      (d.objAt "range").objAt "start" =
        .obj [("character", .num (-1)), ("line", .num 0)] ∧
      (d.objAt "range").objAt "end" =
        .obj [("character", .num 1), ("line", .num 0)] :=
  ⟨_, rfl, rfl, rfl⟩

/-- C5 (counterexample): a `didOpen` naming `file:///a.xyz` makes the
dispatcher itself fault — the `std::invalid_argument` thrown by
`find_language` escapes `handle_message` uncaught, so no error response is
returned for the request and the failure is not contained to it. -/
theorem spec_C5_unknown_extension_fault_escapes_dispatcher :
    handle_message (fun _ _ => "") (didOpenBody "file:///a.xyz" "x")
      uninitState = .error "Unknown file extension!" :=
  rfl

/-- C5 (amended): for an unrecognized extension the request fails with the
descriptive `invalid_argument` error `"Unknown file extension!"` raised
before the compiler is invoked (the outcome is the same for every `compile`
collaborator and every session state), but the exception propagates out of
`handle_message` unhandled instead of being converted into a per-request
error response. -/
theorem spec_C5_unknown_extension_error_before_compiler
    (compile : EShLanguage → String → String) (st : AppState) :
    handle_message compile (didOpenBody "file:///a.xyz" "x") st =
      .error "Unknown file extension!" :=
  rfl

/-- C4 (counterexample): on the spec's own example the translated
diagnostic's message is the whole trimmed `MESSAGE` group
`'positions' : redefinition` — the `'identifier' :` prefix is not stripped,
so the claimed message `redefinition` is wrong. -/
theorem spec_C4_message_keeps_identifier_prefix :
    ∃ d, get_diagnostics (fun _ _ => "ERROR: 0:7: 'positions' : redefinition")
        "file:///shader.vert" exampleContent uninitState = .ok (.arr [d], []) ∧
      d.objAt "message" = .str "'positions' : redefinition" ∧
      "'positions' : redefinition" ≠ "redefinition" :=
  ⟨_, rfl, rfl, by decide⟩

/-- C9: a message whose method is `"initialized"` produces no outgoing
message — `handle_message` returns `std::nullopt` (`none`), leaving the
state untouched, for every session state (initialized or not) and every
compiler; this is the silent outcome, distinct from returning an error
frame. -/
theorem spec_C9_initialized_notification_silent
    (compile : EShLanguage → String → String) (body : Json) (st : AppState)
    (hm : (body.setDefault "method").objAt "method" = .str "initialized") :
    handle_message compile body st = .ok (none, st) := by
  simp only [handle_message]
  rw [hm]
  rfl

/-- C9 witness: the `initialized` notification on a fresh session. -/
theorem spec_C9_witness :
    (((Json.obj [("jsonrpc", .str "2.0"), ("method", .str "initialized")]).setDefault
        "method").objAt "method" = Json.str "initialized") ∧
    handle_message (fun _ _ => "")
        (.obj [("jsonrpc", .str "2.0"), ("method", .str "initialized")])
        uninitState = .ok (none, uninitState) :=
  ⟨rfl, spec_C9_initialized_notification_silent _ _ _ rfl⟩

/-- C6: for every log line matched by the outer pattern (with a parsable,
in-range line number), the translation emits a diagnostic whose severity is
`1` for `ERROR`, `2` for `WARNING` and the unknown marker `-1` for any other
token — the line is not dropped — and an unrecognized token is surfaced as
the unknown-severity log note (when the log file is enabled), not as a
failure of the pass. -/
theorem spec_C6_severity_mapping (content_lines : List String) (st : AppState)
    (line sev ds msg : String) (n : Int)
    (hm : outerMatch line = some (sev, ds, msg))
    (hs : stoiInt ds = .ok n) (h1 : 1 ≤ n)
    (hidx : (n - 1).toNat < content_lines.length) :
    ∃ d notes, processErrorLine content_lines st line = .ok (some d, notes) ∧
      d.objAt "severity" =
        .num (if sev = "ERROR" then 1 else if sev = "WARNING" then 2 else -1) ∧
      (sev ≠ "ERROR" → sev ≠ "WARNING" → st.use_logfile = true →
        notes = [LogNote.unknownSeverity sev]) := by
  unfold processErrorLine
  rw [hm]
  simp only [bind, Except.bind, hs]
  rw [dif_pos ⟨by omega, hidx⟩]
  refine ⟨_, _, rfl, by simp [Json.objAt, Json.lookup, List.lookup], ?_⟩
  intro hE hW hL
  rw [if_neg hE, if_neg hW, if_pos ⟨rfl, hL⟩]

/-- C6 witness: the unrecognized severity token `FOO` on a one-line source
with the log file enabled. -/
theorem spec_C6_witness :
    outerMatch "FOO: 0:1: hi" = some ("FOO", "1", "hi") ∧
    stoiInt "1" = .ok 1 ∧
    (∃ d notes, processErrorLine ["x"] logState "FOO: 0:1: hi" =
        .ok (some d, notes) ∧
      d.objAt "severity" =
        .num (if "FOO" = "ERROR" then 1 else if "FOO" = "WARNING" then 2 else -1) ∧
      ("FOO" ≠ "ERROR" → "FOO" ≠ "WARNING" → logState.use_logfile = true →
        notes = [LogNote.unknownSeverity "FOO"])) :=
  ⟨rfl, rfl,
   spec_C6_severity_mapping ["x"] logState "FOO: 0:1: hi" "FOO" "1" "hi" 1
     rfl rfl (by decide) (by decide)⟩

/-- C7: when the diagnostic pass of a `didOpen` or `didChange` request
produces no diagnostics (the accumulated `json` is empty — in particular
`null`, which is what an empty compiler log leaves), the published
`publishDiagnostics` notification carries the empty JSON array
`Json.arr []`, never `null` and never an absent `diagnostics` field. -/
theorem spec_C7_empty_diagnostics_published_as_empty_array
    (compile : EShLanguage → String → String) (st : AppState)
    (uri text : String) (dj dj2 : Json) (notes notes2 : List LogNote) :
    (get_diagnostics compile uri text
        { st with workspace := add_document st.workspace uri text } =
          .ok (dj, notes) →
      dj.isEmptyJ = true →
      handle_message compile (didOpenBody uri text) st =
        .ok (some (publishBody uri (.arr [])),
          { st with workspace := add_document st.workspace uri text })) ∧
    (get_diagnostics compile uri
        (documentsGet (change_document st.workspace uri text) uri)
        { st with workspace := change_document st.workspace uri text } =
          .ok (dj2, notes2) →
      dj2.isEmptyJ = true →
      handle_message compile (didChangeBody uri text) st =
        .ok (some (publishBody uri (.arr [])),
          { st with workspace := change_document st.workspace uri text })) := by
  constructor
  · intro h1 he
    have hred : handle_message compile (didOpenBody uri text) st =
        (get_diagnostics compile uri text
          { st with workspace := add_document st.workspace uri text }) >>=
          (fun d =>
            .ok (some (publishBody uri (if d.1.isEmptyJ then Json.arr [] else d.1)),
              { st with workspace := add_document st.workspace uri text })) := rfl
    rw [hred, h1]
    show Except.ok (some (publishBody uri (if dj.isEmptyJ then Json.arr [] else dj)), _) = _
    rw [he]
    rfl
  · intro h2 he
    have hred : handle_message compile (didChangeBody uri text) st =
        (get_diagnostics compile uri
          (documentsGet (change_document st.workspace uri text) uri)
          { st with workspace := change_document st.workspace uri text }) >>=
          (fun d =>
            .ok (some (publishBody uri (if d.1.isEmptyJ then Json.arr [] else d.1)),
              { st with workspace := change_document st.workspace uri text })) := rfl
    rw [hred, h2]
    show Except.ok (some (publishBody uri (if dj2.isEmptyJ then Json.arr [] else dj2)), _) = _
    rw [he]
    rfl

/-- C7 witness: an empty compiler log on open and on change of
`file:///a.vert` (the diagnostic pass yields the empty `null` json). -/
theorem spec_C7_witness :
    (get_diagnostics (fun _ _ => "") "file:///a.vert" "x"
        { uninitState with
            workspace := add_document uninitState.workspace "file:///a.vert" "x" } =
      .ok (.null, [])) ∧
    Json.isEmptyJ .null = true ∧
    handle_message (fun _ _ => "") (didOpenBody "file:///a.vert" "x") uninitState =
      .ok (some (publishBody "file:///a.vert" (.arr [])),
        { uninitState with
            workspace := add_document uninitState.workspace "file:///a.vert" "x" }) ∧
    handle_message (fun _ _ => "") (didChangeBody "file:///a.vert" "x") uninitState =
      .ok (some (publishBody "file:///a.vert" (.arr [])),
        { uninitState with
            workspace := change_document uninitState.workspace "file:///a.vert" "x" }) :=
  ⟨rfl, rfl,
   (spec_C7_empty_diagnostics_published_as_empty_array (fun _ _ => "")
      uninitState "file:///a.vert" "x" .null .null [] []).1 rfl rfl,
   (spec_C7_empty_diagnostics_published_as_empty_array (fun _ _ => "")
      uninitState "file:///a.vert" "x" .null .null [] []).2 rfl rfl⟩

/-- A diagnostic pass over a log that splits into a single line producing a
single diagnostic. -/
theorem get_diagnostics_single (compile : EShLanguage → String → String)
    (uri content : String) (st : AppState) (lang : EShLanguage) (line : String)
    (d : Json) (ns : List LogNote)
    (hl : find_language uri = .ok lang)
    (hc : split_string (compile lang content) '\n' = [line])
    (hp : processErrorLine (split_string content '\n') st line = .ok (some d, ns)) :
    ∃ notes, get_diagnostics compile uri content st = .ok (.arr [d], notes) := by
  simp only [get_diagnostics, hl, bind, Except.bind, hc, List.foldlM, diagStep, hp,
    Json.push, pure, Except.pure]
  exact ⟨_, rfl⟩

/-- C4 (amended): a compiler log consisting of the line
`ERROR: 0:7: 'positions' : redefinition`, against a vertex-shader source
whose 7th line contains `positions` first at offset `p`, translates to
exactly one diagnostic: severity Error (1), zero-indexed line 6, start
character `p`, end character `p + 8` (the offset plus the identifier length
minus one), source tag `glslang`, and message `'positions' : redefinition` —
the whole trimmed `MESSAGE` group, not the bare detail `redefinition` the
claim states. -/
theorem spec_C4_redefinition_diagnostic
    (compile : EShLanguage → String → String) (content : String)
    (st : AppState) (p : Nat)
    (hlen : 6 < (split_string content '\n').length)
    (hfind : strFind ((split_string content '\n').get ⟨6, hlen⟩) "positions" =
      some p)
    (hsmall : p + 9 < 2147483648)
    (hc : compile .vertex content = "ERROR: 0:7: 'positions' : redefinition") :
    ∃ notes, get_diagnostics compile "file:///shader.vert" content st =
      .ok (.arr [Json.obj
        [("message", .str "'positions' : redefinition"),
         ("range", .obj
           [("end", .obj [("character", .num (p + 8)), ("line", .num 6)]),
            ("start", .obj [("character", .num p), ("line", .num 6)])]),
         ("severity", .num 1), ("source", .str "glslang")]], notes) := by
  refine get_diagnostics_single compile "file:///shader.vert" content st
    .vertex "ERROR: 0:7: 'positions' : redefinition" _ [] rfl
    (by rw [hc]; rfl) ?_
  have hB : ((7 : Int) - 1).toNat < (split_string content '\n').length := by
    rw [show ((7 : Int) - 1).toNat = 6 from rfl]; exact hlen
  unfold processErrorLine
  rw [show outerMatch "ERROR: 0:7: 'positions' : redefinition" =
    some ("ERROR", "7", "'positions' : redefinition") from rfl]
  simp only [bind, Except.bind, show stoiInt "7" = .ok 7 from rfl]
  rw [dif_pos ⟨by norm_num, hB⟩]
  simp only [show ((7 : Int) - 1).toNat = 6 from rfl,
    show ((7 : Int) - 1) = (6 : Int) from rfl,
    show Int.toNat 6 = 6 from rfl,
    show trim "'positions' : redefinition" " " = "'positions' : redefinition" from rfl,
    show secondaryMatch "'positions' : redefinition" =
      some ("positions", "redefinition") from rfl,
    hfind]
  have h1 : trunc32 p = (p : Int) := trunc32_small p (by omega)
  have h2 : trunc32 (sizeTSub1 (sizeT (p + 9))) = ((p + 8 : Nat) : Int) := by
    rw [sizeT_small (p + 9) (by omega), sizeTSub1_small (p + 9) (by omega) (by omega)]
    exact trunc32_small (p + 8) (by omega)
  norm_num [h1, h2]

/-- Lookup after a sorted insert: the inserted key reads back the inserted
value, other keys are untouched. -/
theorem lookup_insertSorted (fs : List (String × Json)) (k k' : String)
    (v : Json) :
    (insertSorted fs k v).lookup k' = if k' = k then some v else fs.lookup k' := by
  induction fs with
  | nil =>
      simp only [insertSorted, List.lookup]
      by_cases hk : k' = k
      · simp [hk]
      · simp [hk, beq_false_of_ne hk]
  | cons head tail ih =>
      obtain ⟨k₁, v₁⟩ := head
      simp only [insertSorted]
      by_cases h1 : k = k₁
      · subst h1
        by_cases hk : k' = k
        · simp [hk, List.lookup]
        · simp [hk, List.lookup, beq_false_of_ne hk]
      · rw [if_neg h1]
        by_cases h2 : strLt k k₁ = true
        · rw [if_pos h2]
          by_cases hk : k' = k
          · simp [hk, List.lookup]
          · simp [List.lookup, beq_false_of_ne hk, hk]
        · rw [if_neg h2]
          by_cases hk1 : k' = k₁
          · subst hk1
            have : ¬ k' = k := fun hh => h1 hh.symm
            simp [List.lookup, this, ih]
          · simp [List.lookup, beq_false_of_ne hk1, ih]

/-- Reading `j[k']` is unaffected by the `null`-insertion that a prior
`j[k]` read performs. -/
theorem objAt_setDefault (j : Json) (k k' : String) :
    (j.setDefault k).objAt k' = j.objAt k' := by
  cases j with
  | obj fs =>
      simp only [Json.setDefault]
      by_cases h : (fs.lookup k).isSome
      · simp [h]
      · rw [if_neg h]
        simp only [Json.objAt, Json.lookup, lookup_insertSorted]
        by_cases hk : k' = k
        · subst hk
          rw [if_pos rfl]
          rw [Option.not_isSome_iff_eq_none] at h
          simp [h]
        · rw [if_neg hk]
  | null =>
      simp only [Json.setDefault, Json.objAt, Json.lookup, List.lookup]
      by_cases hk : k' = k
      · simp [hk]
      · simp [beq_false_of_ne hk]
  | b x => rfl
  | num x => rfl
  | str x => rfl
  | arr xs => rfl

/-- C4 witness: the example source, whose 7th line holds `positions` first
at offset 5, gives one Error diagnostic on line 6 spanning characters 5 to
13. -/
theorem spec_C4_witness :
    6 < (split_string exampleContent '\n').length ∧
    ∃ notes,
      get_diagnostics (fun _ _ => "ERROR: 0:7: 'positions' : redefinition")
          "file:///shader.vert" exampleContent uninitState =
        .ok (.arr [Json.obj
          [("message", .str "'positions' : redefinition"),
           ("range", .obj
             [("end", .obj [("character", .num 13), ("line", .num 6)]),
              ("start", .obj [("character", .num 5), ("line", .num 6)])]),
           ("severity", .num 1), ("source", .str "glslang")]], notes) := by
  refine ⟨by decide, ?_⟩
  have h := spec_C4_redefinition_diagnostic
    (fun _ _ => "ERROR: 0:7: 'positions' : redefinition") exampleContent
    uninitState 5 (by decide) rfl (by decide) rfl
  norm_num at h
  exact h

/-- C10: every error response the dispatcher produces is exactly the
`{ "error": { code, message } }` object — no `id` field — and once the
encoder adds its tag the content holds exactly the error object and
`jsonrpc: "2.0"`; by contrast the successful `initialize` response echoes
the request's `id`. -/
theorem spec_C10_error_responses_omit_id
    (compile : EShLanguage → String → String) (body : Json) (st : AppState)
    (resp : Json) (st' : AppState)
    (h : handle_message compile body st = .ok (some resp, st')) :
    ((resp.lookup "error").isSome = true →
      (∃ c msg, resp = errorBody c msg) ∧ resp.lookup "id" = none ∧
      ∃ c msg, resp.setKey "jsonrpc" (.str "2.0") =
        .obj [("error", .obj [("code", .num c), ("message", .str msg)]),
              ("jsonrpc", .str "2.0")]) ∧
    ((body.setDefault "method").objAt "method" = .str "initialize" →
      resp = .obj [("id", body.objAt "id"), ("result", initializeResult)] ∧
      resp.lookup "id" = some (body.objAt "id")) := by
  simp only [handle_message] at h
  split at h
  · simp at h
  · split at h
    · -- initialize branch
      rename_i hcond
      simp only [Except.ok.injEq, Prod.mk.injEq, Option.some.injEq] at h
      obtain ⟨hresp, -⟩ := h
      subst hresp
      constructor
      · intro hErr
        simp [Json.lookup, List.lookup] at hErr
      · intro _
        rw [objAt_setDefault, objAt_setDefault]
        exact ⟨rfl, by simp [Json.lookup, List.lookup]⟩
    · rename_i hcInit
      split at h
      · -- didOpen branch
        rw [exceptBind_eq_ok] at h
        obtain ⟨uriv, -, h⟩ := h
        rw [exceptBind_eq_ok] at h
        obtain ⟨textv, -, h⟩ := h
        rw [exceptBind_eq_ok] at h
        obtain ⟨d, -, h⟩ := h
        simp only [Except.ok.injEq, Prod.mk.injEq, Option.some.injEq] at h
        obtain ⟨hresp, -⟩ := h
        subst hresp
        constructor
        · intro hErr
          simp [publishBody, Json.lookup, List.lookup] at hErr
        · intro hm
          exact absurd (by rw [hm]; rfl) hcInit
      · split at h
        · -- didChange branch
          rw [exceptBind_eq_ok] at h
          obtain ⟨uriv, -, h⟩ := h
          rw [exceptBind_eq_ok] at h
          obtain ⟨changev, -, h⟩ := h
          rw [exceptBind_eq_ok] at h
          obtain ⟨d, -, h⟩ := h
          simp only [Except.ok.injEq, Prod.mk.injEq, Option.some.injEq] at h
          obtain ⟨hresp, -⟩ := h
          subst hresp
          constructor
          · intro hErr
            simp [publishBody, Json.lookup, List.lookup] at hErr
          · intro hm
            exact absurd (by rw [hm]; rfl) hcInit
        · split at h
          · -- -32002 branch
            simp only [Except.ok.injEq, Prod.mk.injEq, Option.some.injEq] at h
            obtain ⟨hresp, -⟩ := h
            subst hresp
            constructor
            · intro _
              exact ⟨⟨-32002, _, rfl⟩, by simp [errorBody, Json.lookup, List.lookup],
                -32002, "Server not yet initialized.", rfl⟩
            · intro hm
              exact absurd (by rw [hm]; rfl) hcInit
          · split at h
            · -- -32601 branch (match on the method value)
              split at h
              · simp only [Except.ok.injEq, Prod.mk.injEq, Option.some.injEq] at h
                obtain ⟨hresp, -⟩ := h
                subst hresp
                constructor
                · intro _
                  exact ⟨⟨-32601, _, rfl⟩, by simp [errorBody, Json.lookup, List.lookup],
                    -32601, _, rfl⟩
                · intro hm
                  exact absurd (by rw [hm]; rfl) hcInit
              · simp at h
            · -- -32700 branch
              simp only [Except.ok.injEq, Prod.mk.injEq, Option.some.injEq] at h
              obtain ⟨hresp, -⟩ := h
              subst hresp
              constructor
              · intro _
                exact ⟨⟨-32700, _, rfl⟩, by simp [errorBody, Json.lookup, List.lookup],
                  -32700, "Couldn't parse message.", rfl⟩
              · intro hm
                exact absurd (by rw [hm]; rfl) hcInit

/-- C10 witness: an unknown method `foo/bar` on an initialized session with
request id 1 — the `-32601` error response has no `id` field. -/
theorem spec_C10_witness :
    handle_message (fun _ _ => "")
        (.obj [("id", .num 1), ("method", .str "foo/bar")]) initializedState =
      .ok (some (errorBody (-32601) "Method 'foo/bar' not supported."),
        initializedState) ∧
    ((errorBody (-32601) "Method 'foo/bar' not supported.").lookup "error").isSome
        = true ∧
    (∃ c msg, errorBody (-32601) "Method 'foo/bar' not supported." =
        errorBody c msg) ∧
    (errorBody (-32601) "Method 'foo/bar' not supported.").lookup "id" = none :=
  ⟨rfl, rfl,
   ((spec_C10_error_responses_omit_id (fun _ _ => "")
      (.obj [("id", .num 1), ("method", .str "foo/bar")]) initializedState
      (errorBody (-32601) "Method 'foo/bar' not supported.") initializedState
      rfl).1 rfl).1,
   ((spec_C10_error_responses_omit_id (fun _ _ => "")
      (.obj [("id", .num 1), ("method", .str "foo/bar")]) initializedState
      (errorBody (-32601) "Method 'foo/bar' not supported.") initializedState
      rfl).1 rfl).2.1⟩

end Theorems

end GlslLsp
